import Mathlib

/-!
Verification development for the memU storage/synchronization subsystem
(`memu/memory/pg_store.py`): the durable-store driver `PostgresClient`, its
four upsert operations and bulk reload, and the `PersistentStoreProxy`
that composes the driver with the in-memory repository.

Modelling conventions:
* The Postgres database is modelled as a value of type `Db`: each table is an
  association list keyed by its primary-key column (`id`).  `INSERT ... ON
  CONFLICT (id) DO UPDATE` is `upsertKeyed` (replace in place if the key is
  present, append otherwise), `ON CONFLICT DO NOTHING` is `insertIfAbsent`.
* Embedding scalars are modelled as rationals (`Rat`); the claims under study
  do not depend on float rounding.  The value held by an `embedding` column is
  a `DbVal`: SQL NULL, a string (`json.dumps` of a list, some other JSON text,
  or malformed text that `json.loads` rejects), a native list value, or some
  other non-string value.  `json.dumps` on a list of numbers always succeeds
  and `json.loads` inverts it, so the JSON-encoded string is carried as a
  tagged constructor `DbVal.str (EmbStr.jsonList v)`.
* `asyncpg.create_pool` is an external effect: the environment `PgEnv` fixes
  its outcome — it either returns a pool handle or raises a connectivity
  error.  Exceptions are modelled with `Except`; a Python coroutine that
  raises is a computation returning `Except.error`.
* `uuid.uuid4()` (in `upsert_relation`) and `now()` (in `upsert_item`) are
  externally supplied values, passed as explicit arguments.
-/

namespace MemU

/-- What a string sitting in an `embedding` column can be, as seen through
`json.loads`: the `json.dumps` image of a list, valid JSON that is not a list,
or text that fails to decode. -/
inductive EmbStr where
  | jsonList (v : List Rat)
  | jsonOther
  | malformed
  deriving DecidableEq

/-- A Python value held by an `embedding` column: `None` (SQL NULL), a string,
a list (e.g. a native vector column decoded to a list), or any other
non-string non-list value. -/
inductive DbVal where
  | null
  | str (s : EmbStr)
  | lst (v : List Rat)
  | other
  deriving DecidableEq

/-- `memu.models.Resource` (fields per the spec's data model and their use in
`pg_store.py`). -/
structure Resource where
  id : String
  url : String
  local_path : String
  modality : String
  caption : Option String
  embedding : Option (List Rat)
  deriving DecidableEq

/-- `memu.models.MemoryCategory`. -/
structure MemoryCategory where
  id : String
  name : String
  description : String
  summary : Option String
  embedding : Option (List Rat)
  deriving DecidableEq

/-- `memu.models.MemoryItem`. -/
structure MemoryItem where
  id : String
  resource_id : String
  memory_type : String
  summary : String
  embedding : Option (List Rat)
  deriving DecidableEq

/-- `memu.models.CategoryItem` as held in memory: the relation's durable-store
row id is generated only at persistence time. -/
structure CategoryItem where
  item_id : String
  category_id : String
  deriving DecidableEq

/-- A row of the `resources` table (minus the `id` key column). Text columns
are nullable in the model since the driver reads them with `r[i] or ""`. -/
structure ResourceRow where
  url : Option String
  local_path : Option String
  modality : Option String
  caption : Option String
  embedding : DbVal
  embed_model : Option String
  embed_dim : Int
  deriving DecidableEq

/-- A row of the `categories` table (minus the `id` key column). -/
structure CategoryRow where
  name : Option String
  description : Option String
  summary : Option String
  embedding : DbVal
  embed_model : Option String
  embed_dim : Int
  deriving DecidableEq

/-- A row of the `items` table (minus the `id` key column); `created_at` is
set once at first insert and never updated. -/
structure ItemRow where
  summary : Option String
  embedding : DbVal
  created_at : Nat
  deriving DecidableEq

/-- A row of the `relations` table (minus the `id` key column). -/
structure RelationRow where
  item_id : String
  category_id : String
  deriving DecidableEq

/-- The durable store: the four tables, each an association list keyed by the
primary-key `id` column (primary keys make the key lists duplicate-free). -/
structure Db where
  resources : List (String × ResourceRow)
  categories : List (String × CategoryRow)
  items : List (String × ItemRow)
  relations : List (String × RelationRow)
  deriving DecidableEq

def emptyDb : Db := { resources := [], categories := [], items := [], relations := [] }

/-- Lookup by key in an association list. -/
def lookupKey {ρ : Type} : List (String × ρ) → String → Option ρ
  | [], _ => none
  | (k, v) :: rest, i => if k = i then some v else lookupKey rest i

/-- `INSERT ... ON CONFLICT (id) DO UPDATE`: if the key is present, replace the
row in place by `f (some oldRow)`; otherwise append `f none`. -/
def upsertKeyed {ρ : Type} : List (String × ρ) → String → (Option ρ → ρ) → List (String × ρ)
  | [], i, f => [(i, f none)]
  | (k, v) :: rest, i, f =>
    if k = i then (k, f (some v)) :: rest else (k, v) :: upsertKeyed rest i f

/-- Upsert that overwrites every column (resources, categories). -/
def setKey {ρ : Type} (t : List (String × ρ)) (i : String) (v : ρ) : List (String × ρ) :=
  upsertKeyed t i (fun _ => v)

/-- `INSERT ... ON CONFLICT (id) DO NOTHING`. -/
def insertIfAbsent {ρ : Type} (t : List (String × ρ)) (i : String) (v : ρ) :
    List (String × ρ) :=
  if (lookupKey t i).isSome then t else t ++ [(i, v)]

/-- Fold a sequence of per-row assignments `map[id] = f id row` over a table's
rows, as the reload loops do. -/
def foldSet {σ ρ : Type} (f : String → σ → ρ) (t : List (String × ρ))
    (rows : List (String × σ)) : List (String × ρ) :=
  rows.foldl (fun acc p => setKey acc p.1 (f p.1 p.2)) t

/-- The only error class the driver can meet at this layer: the pool cannot be
established. -/
inductive PgError where
  | connectivity
  deriving DecidableEq

/-- The external world as the driver sees it: the outcome of
`asyncpg.create_pool(dsn=self.dsn, min_size=1, max_size=5)` — a pool handle,
or a raised connectivity error. -/
structure PgEnv where
  create_pool : Except PgError Unit

/-- `PostgresClient.__init__(dsn, embed_dim=1536)` state: `self.pool` starts
as `None` and is set by `ensure_pool`. -/
structure PostgresClient where
  dsn : String
  pool : Option Unit
  embed_dim : Int
  deriving DecidableEq

/-- `PostgresClient.ensure_pool`: `if self.pool is None: self.pool = await
asyncpg.create_pool(...)`.  A raise from `create_pool` propagates and leaves
`self.pool` unset. -/
def PostgresClient.ensure_pool (s : PostgresClient) (env : PgEnv) :
    Except PgError PostgresClient :=
  match s.pool with
  | some _ => Except.ok s
  | none =>
    match env.create_pool with
    | Except.ok p => Except.ok { s with pool := some p }
    | Except.error e => Except.error e

/-- Serialization of an entity's `embedding` field on the upsert path:
`json.dumps(e, ensure_ascii=False)` when the field is a list (it never raises
on a list of numbers, so the `except` fallback is unreachable), the value
itself — `None` — otherwise. -/
def encodeEmb : Option (List Rat) → DbVal
  | some v => DbVal.str (EmbStr.jsonList v)
  | none => DbVal.null

/-- The tolerant decode used by `load_into_store` on each row: a string is
passed through `json.loads` (`None` on failure), then any non-list result
becomes `None` and a list is kept. -/
def decodeEmb : DbVal → Option (List Rat)
  | DbVal.null => none
  | DbVal.str (EmbStr.jsonList v) => some v
  | DbVal.str EmbStr.jsonOther => none
  | DbVal.str EmbStr.malformed => none
  | DbVal.lst v => some v
  | DbVal.other => none

/-- The `resources` row written by `upsert_resource` (`embed_model` is passed
as `None`, `embed_dim` from the client). -/
def PostgresClient.resource_row (s : PostgresClient) (res : Resource) : ResourceRow :=
  { url := some res.url
    local_path := some res.local_path
    modality := some res.modality
    caption := res.caption
    embedding := encodeEmb res.embedding
    embed_model := none
    embed_dim := s.embed_dim }

/-- `PostgresClient.upsert_resource`: ensure the pool (propagating a raise),
return silently if the pool is still unset, otherwise insert-or-overwrite the
row keyed by `res.id`. -/
def PostgresClient.upsert_resource (s : PostgresClient) (env : PgEnv) (db : Db)
    (res : Resource) : Except PgError (PostgresClient × Db) :=
  match s.ensure_pool env with
  | Except.error e => Except.error e
  | Except.ok s1 =>
    match s1.pool with
    | none => Except.ok (s1, db)
    | some _ =>
      Except.ok (s1, { db with resources := setKey db.resources res.id (s1.resource_row res) })

/-- The `categories` row written by `upsert_category`. -/
def PostgresClient.category_row (s : PostgresClient) (cat : MemoryCategory) : CategoryRow :=
  { name := some cat.name
    description := some cat.description
    summary := cat.summary
    embedding := encodeEmb cat.embedding
    embed_model := none
    embed_dim := s.embed_dim }

/-- `PostgresClient.upsert_category`. -/
def PostgresClient.upsert_category (s : PostgresClient) (env : PgEnv) (db : Db)
    (cat : MemoryCategory) : Except PgError (PostgresClient × Db) :=
  match s.ensure_pool env with
  | Except.error e => Except.error e
  | Except.ok s1 =>
    match s1.pool with
    | none => Except.ok (s1, db)
    | some _ =>
      Except.ok (s1, { db with categories := setKey db.categories cat.id (s1.category_row cat) })

/-- The per-row `INSERT ... ON CONFLICT (id) DO UPDATE` step of `upsert_item`:
`created_at` is set to `now()` on first insert only; on conflict only
`summary` and `embedding` are overwritten. -/
def itemStep (item : MemoryItem) (now : Nat) : Option ItemRow → ItemRow := fun old =>
  match old with
  | none =>
    { summary := some item.summary, embedding := encodeEmb item.embedding, created_at := now }
  | some o =>
    { o with summary := some item.summary, embedding := encodeEmb item.embedding }

/-- `PostgresClient.upsert_item`. -/
def PostgresClient.upsert_item (s : PostgresClient) (env : PgEnv) (db : Db)
    (item : MemoryItem) (now : Nat) : Except PgError (PostgresClient × Db) :=
  match s.ensure_pool env with
  | Except.error e => Except.error e
  | Except.ok s1 =>
    match s1.pool with
    | none => Except.ok (s1, db)
    | some _ =>
      Except.ok (s1, { db with items := upsertKeyed db.items item.id (itemStep item now) })

/-- `PostgresClient.upsert_relation`: a row keyed by a freshly generated
`str(uuid.uuid4())` (passed in as `newId`), inserted with `ON CONFLICT (id) DO
NOTHING`. -/
def PostgresClient.upsert_relation (s : PostgresClient) (env : PgEnv) (db : Db)
    (rel : CategoryItem) (newId : String) : Except PgError (PostgresClient × Db) :=
  match s.ensure_pool env with
  | Except.error e => Except.error e
  | Except.ok s1 =>
    match s1.pool with
    | none => Except.ok (s1, db)
    | some _ =>
      let row : RelationRow := { item_id := rel.item_id, category_id := rel.category_id }
      Except.ok (s1, { db with relations := insertIfAbsent db.relations newId row })

/-- Reconstruction of a `MemoryCategory` from a `categories` row inside
`load_into_store`: `str(r[i] or "")` on text columns, identity on the nullable
`summary`, tolerant decode of the embedding. -/
def categoryOfRow (i : String) (r : CategoryRow) : MemoryCategory :=
  { id := i
    name := r.name.getD ""
    description := r.description.getD ""
    summary := r.summary
    embedding := decodeEmb r.embedding }

/-- Reconstruction of a `Resource` from a `resources` row inside
`load_into_store`. -/
def resourceOfRow (i : String) (r : ResourceRow) : Resource :=
  { id := i
    url := r.url.getD ""
    local_path := r.local_path.getD ""
    modality := r.modality.getD ""
    caption := r.caption
    embedding := decodeEmb r.embedding }

/-- Reconstruction of a `MemoryItem` from an `items` row inside
`load_into_store`: the table has no `resource_id` or `memory_type` column, so
the loader hard-codes `resource_id=""` and `memory_type="knowledge"`. -/
def itemOfRow (i : String) (r : ItemRow) : MemoryItem :=
  { id := i
    resource_id := ""
    memory_type := "knowledge"
    summary := r.summary.getD ""
    embedding := decodeEmb r.embedding }

/-- Reconstruction of an in-memory `CategoryItem` from a `relations` row
(`SELECT item_id, category_id FROM relations`; the row id is not loaded). -/
def relOfRow (r : RelationRow) : CategoryItem :=
  { item_id := r.item_id, category_id := r.category_id }

/-- The in-memory repository `InMemoryStore` (`memu/memory/repo.py`): dicts
from id to entity for resources/categories/items, a list of relation records,
and a fresh-id allocator. -/
structure InMemoryStore where
  resources : List (String × Resource)
  categories : List (String × MemoryCategory)
  items : List (String × MemoryItem)
  relations : List CategoryItem
  next_id : Nat
  deriving DecidableEq

def emptyStore : InMemoryStore :=
  { resources := [], categories := [], items := [], relations := [], next_id := 0 }

/-- The pure body of `load_into_store` once a pooled connection is acquired:
the four `SELECT`/loop passes, in source order (categories, resources, items,
relations).  Entity rows are written with `store.xs[x.id] = x`; relation rows
are appended with `store.relations.append(...)`. -/
def loadedStore (db : Db) (store : InMemoryStore) : InMemoryStore :=
  let store1 := { store with categories := foldSet categoryOfRow store.categories db.categories }
  let store2 := { store1 with resources := foldSet resourceOfRow store1.resources db.resources }
  let store3 := { store2 with items := foldSet itemOfRow store2.items db.items }
  { store3 with relations := store3.relations ++ db.relations.map (fun p => relOfRow p.2) }

/-- `PostgresClient.load_into_store`: ensure the pool (propagating a raise),
return `False` without touching the repository if the pool is still unset,
otherwise run the four load passes and return `True`. -/
def PostgresClient.load_into_store (s : PostgresClient) (env : PgEnv) (db : Db)
    (store : InMemoryStore) : Except PgError (PostgresClient × InMemoryStore × Bool) :=
  match s.ensure_pool env with
  | Except.error e => Except.error e
  | Except.ok s1 =>
    match s1.pool with
    | none => Except.ok (s1, store, false)
    | some _ => Except.ok (s1, loadedStore db store, true)

/-- Modelled from the spec: `InMemoryStore.create_resource` lives in
`memu/memory/repo.py`, which is not among the given sources.  Per §4.1 it
"allocates a fresh identifier, stores the entity keyed by id, returns it". -/
def InMemoryStore.create_resource (s : InMemoryStore) (url modality local_path : String) :
    Resource × InMemoryStore :=
  let rid := toString s.next_id
  let res : Resource :=
    { id := rid, url := url, local_path := local_path, modality := modality,
      caption := none, embedding := none }
  (res, { s with resources := setKey s.resources rid res, next_id := s.next_id + 1 })

/-- Modelled from the spec: `InMemoryStore.get_or_create_category` (§4.1)
"looks up an existing category by name; if found, returns it unchanged
(embedding/description on the call are ignored for an existing match);
otherwise creates and stores a new one". -/
def InMemoryStore.get_or_create_category (s : InMemoryStore) (name description : String)
    (embedding : Option (List Rat)) : MemoryCategory × InMemoryStore :=
  match s.categories.find? (fun p => p.2.name == name) with
  | some p => (p.2, s)
  | none =>
    let cid := toString s.next_id
    let cat : MemoryCategory :=
      { id := cid, name := name, description := description, summary := none,
        embedding := embedding }
    (cat, { s with categories := setKey s.categories cid cat, next_id := s.next_id + 1 })

/-- Modelled from the spec: `InMemoryStore.create_item` (§4.1) "always creates
a new item; does not validate that resource_id refers to an existing
resource". -/
def InMemoryStore.create_item (s : InMemoryStore) (resource_id memory_type summary : String)
    (embedding : Option (List Rat)) : MemoryItem × InMemoryStore :=
  let iid := toString s.next_id
  let item : MemoryItem :=
    { id := iid, resource_id := resource_id, memory_type := memory_type,
      summary := summary, embedding := embedding }
  (item, { s with items := setKey s.items iid item, next_id := s.next_id + 1 })

/-- Modelled from the spec: `InMemoryStore.link_item_category` (§4.1) "appends
a new relation record; does not check for an existing identical link or
validate referenced ids". -/
def InMemoryStore.link_item_category (s : InMemoryStore) (item_id category_id : String) :
    CategoryItem × InMemoryStore :=
  let rel : CategoryItem := { item_id := item_id, category_id := category_id }
  (rel, { s with relations := s.relations ++ [rel] })

/-- `PersistentStoreProxy.__init__(store, db)`: the in-memory repository and an
optional durable-store driver. -/
structure PersistentStoreProxy where
  store : InMemoryStore
  db : Option PostgresClient

/-- `PersistentStoreProxy.create_resource`: forwards to the repository and
returns its result. -/
def PersistentStoreProxy.create_resource (p : PersistentStoreProxy)
    (url modality local_path : String) : Resource × PersistentStoreProxy :=
  let r := p.store.create_resource url modality local_path
  (r.1, { p with store := r.2 })

/-- `PersistentStoreProxy.get_or_create_category`. -/
def PersistentStoreProxy.get_or_create_category (p : PersistentStoreProxy)
    (name description : String) (embedding : Option (List Rat)) :
    MemoryCategory × PersistentStoreProxy :=
  let r := p.store.get_or_create_category name description embedding
  (r.1, { p with store := r.2 })

/-- `PersistentStoreProxy.create_item`. -/
def PersistentStoreProxy.create_item (p : PersistentStoreProxy)
    (resource_id memory_type summary : String) (embedding : Option (List Rat)) :
    MemoryItem × PersistentStoreProxy :=
  let r := p.store.create_item resource_id memory_type summary embedding
  (r.1, { p with store := r.2 })

/-- `PersistentStoreProxy.link_item_category`. -/
def PersistentStoreProxy.link_item_category (p : PersistentStoreProxy)
    (item_id cat_id : String) : CategoryItem × PersistentStoreProxy :=
  let r := p.store.link_item_category item_id cat_id
  (r.1, { p with store := r.2 })

/-- `PersistentStoreProxy.persist_resource`: `if self.db: await
self.db.upsert_resource(res)` — a no-op when no driver is configured. -/
def PersistentStoreProxy.persist_resource (p : PersistentStoreProxy) (env : PgEnv)
    (db : Db) (res : Resource) : Except PgError (PersistentStoreProxy × Db) :=
  match p.db with
  | none => Except.ok (p, db)
  | some c =>
    match c.upsert_resource env db res with
    | Except.error e => Except.error e
    | Except.ok r => Except.ok ({ p with db := some r.1 }, r.2)

/-- `PersistentStoreProxy.persist_category`. -/
def PersistentStoreProxy.persist_category (p : PersistentStoreProxy) (env : PgEnv)
    (db : Db) (cat : MemoryCategory) : Except PgError (PersistentStoreProxy × Db) :=
  match p.db with
  | none => Except.ok (p, db)
  | some c =>
    match c.upsert_category env db cat with
    | Except.error e => Except.error e
    | Except.ok r => Except.ok ({ p with db := some r.1 }, r.2)

/-- `PersistentStoreProxy.persist_item`. -/
def PersistentStoreProxy.persist_item (p : PersistentStoreProxy) (env : PgEnv)
    (db : Db) (item : MemoryItem) (now : Nat) : Except PgError (PersistentStoreProxy × Db) :=
  match p.db with
  | none => Except.ok (p, db)
  | some c =>
    match c.upsert_item env db item now with
    | Except.error e => Except.error e
    | Except.ok r => Except.ok ({ p with db := some r.1 }, r.2)

/-- `PersistentStoreProxy.persist_relation`. -/
def PersistentStoreProxy.persist_relation (p : PersistentStoreProxy) (env : PgEnv)
    (db : Db) (rel : CategoryItem) (newId : String) :
    Except PgError (PersistentStoreProxy × Db) :=
  match p.db with
  | none => Except.ok (p, db)
  | some c =>
    match c.upsert_relation env db rel newId with
    | Except.error e => Except.error e
    | Except.ok r => Except.ok ({ p with db := some r.1 }, r.2)

/-- `PersistentStoreProxy.load_all`: delegates to the driver's bulk reload;
returns `False` when no driver is configured. -/
def PersistentStoreProxy.load_all (p : PersistentStoreProxy) (env : PgEnv) (db : Db) :
    Except PgError (PersistentStoreProxy × Bool) :=
  match p.db with
  | none => Except.ok (p, false)
  | some c =>
    match c.load_into_store env db p.store with
    | Except.error e => Except.error e
    | Except.ok r => Except.ok ({ store := r.2.1, db := some r.1 }, r.2.2)

/-! ### Association-list lemmas -/

lemma lookupKey_upsertKeyed_self {ρ : Type} (t : List (String × ρ)) (i : String)
    (f : Option ρ → ρ) : lookupKey (upsertKeyed t i f) i = some (f (lookupKey t i)) := by
  induction t with
  | nil => simp [upsertKeyed, lookupKey]
  | cons p rest ih =>
    obtain ⟨k, v⟩ := p
    by_cases h : k = i
    · simp [upsertKeyed, lookupKey, h]
    · simp [upsertKeyed, lookupKey, h, ih]

lemma lookupKey_upsertKeyed_ne {ρ : Type} (t : List (String × ρ)) (i j : String)
    (f : Option ρ → ρ) (h : j ≠ i) :
    lookupKey (upsertKeyed t i f) j = lookupKey t j := by
  induction t with
  | nil =>
    simp only [upsertKeyed, lookupKey]
    rw [if_neg (fun hh => h hh.symm)]
  | cons p rest ih =>
    obtain ⟨k, v⟩ := p
    by_cases hk : k = i
    · subst hk
      simp only [upsertKeyed, if_pos rfl, lookupKey]
      rw [if_neg (fun hh => h hh.symm), if_neg (fun hh => h hh.symm)]
    · simp [upsertKeyed, lookupKey, hk, ih]

lemma lookupKey_setKey_self {ρ : Type} (t : List (String × ρ)) (i : String) (v : ρ) :
    lookupKey (setKey t i v) i = some v :=
  lookupKey_upsertKeyed_self t i (fun _ => v)

lemma lookupKey_setKey_ne {ρ : Type} (t : List (String × ρ)) (i j : String) (v : ρ)
    (h : j ≠ i) : lookupKey (setKey t i v) j = lookupKey t j :=
  lookupKey_upsertKeyed_ne t i j (fun _ => v) h

lemma setKey_of_lookupKey {ρ : Type} (t : List (String × ρ)) (i : String) (v : ρ)
    (h : lookupKey t i = some v) : setKey t i v = t := by
  induction t with
  | nil => simp [lookupKey] at h
  | cons p rest ih =>
    obtain ⟨k, w⟩ := p
    by_cases hk : k = i
    · subst hk
      have hw : w = v := by simpa [lookupKey] using h
      subst hw
      simp [setKey, upsertKeyed]
    · simp only [lookupKey, if_neg hk] at h
      simp only [setKey, upsertKeyed, if_neg hk] at ih ⊢
      rw [ih h]

lemma upsertKeyed_absorb {ρ : Type} (t : List (String × ρ)) (i : String)
    (f g : Option ρ → ρ) (h : ∀ o, g (some (f o)) = f o) :
    upsertKeyed (upsertKeyed t i f) i g = upsertKeyed t i f := by
  induction t with
  | nil => simp [upsertKeyed, h]
  | cons p rest ih =>
    obtain ⟨k, v⟩ := p
    by_cases hk : k = i
    · simp [upsertKeyed, hk, h]
    · simp [upsertKeyed, hk, ih]

lemma foldSet_nil {σ ρ : Type} (f : String → σ → ρ) (t : List (String × ρ)) :
    foldSet f t [] = t := rfl

lemma foldSet_cons {σ ρ : Type} (f : String → σ → ρ) (t : List (String × ρ))
    (k : String) (v : σ) (rs : List (String × σ)) :
    foldSet f t ((k, v) :: rs) = foldSet f (setKey t k (f k v)) rs := rfl

lemma lookupKey_foldSet_of_not_mem {σ ρ : Type} (f : String → σ → ρ)
    (t : List (String × ρ)) (rows : List (String × σ)) (i : String)
    (h : i ∉ rows.map Prod.fst) :
    lookupKey (foldSet f t rows) i = lookupKey t i := by
  induction rows generalizing t with
  | nil => rfl
  | cons p rs ih =>
    obtain ⟨k, v⟩ := p
    simp only [List.map_cons, List.mem_cons, not_or] at h
    rw [foldSet_cons, ih _ h.2, lookupKey_setKey_ne _ _ _ _ h.1]

lemma lookupKey_foldSet_of_mem {σ ρ : Type} (f : String → σ → ρ)
    (t : List (String × ρ)) (rows : List (String × σ)) (i : String) (v : σ)
    (hnd : (rows.map Prod.fst).Nodup) (hmem : (i, v) ∈ rows) :
    lookupKey (foldSet f t rows) i = some (f i v) := by
  induction rows generalizing t with
  | nil => cases hmem
  | cons p rs ih =>
    obtain ⟨k, w⟩ := p
    simp only [List.map_cons, List.nodup_cons] at hnd
    rcases List.mem_cons.1 hmem with heq | hmem2
    · obtain ⟨h1, h2⟩ := Prod.mk.injEq .. ▸ heq
      subst h1; subst h2
      rw [foldSet_cons, lookupKey_foldSet_of_not_mem _ _ _ _ hnd.1,
        lookupKey_setKey_self]
    · exact foldSet_cons .. ▸ ih _ hnd.2 hmem2

lemma foldSet_foldSet {σ ρ : Type} (f : String → σ → ρ) (t : List (String × ρ))
    (rows : List (String × σ)) (hnd : (rows.map Prod.fst).Nodup) :
    foldSet f (foldSet f t rows) rows = foldSet f t rows := by
  induction rows generalizing t with
  | nil => rfl
  | cons p rs ih =>
    obtain ⟨k, v⟩ := p
    simp only [List.map_cons, List.nodup_cons] at hnd
    rw [foldSet_cons, foldSet_cons]
    have hl : lookupKey (foldSet f (setKey t k (f k v)) rs) k = some (f k v) := by
      rw [lookupKey_foldSet_of_not_mem _ _ _ _ hnd.1, lookupKey_setKey_self]
    rw [setKey_of_lookupKey _ _ _ hl, ih _ hnd.2]

lemma insertIfAbsent_of_none {ρ : Type} (t : List (String × ρ)) (i : String) (v : ρ)
    (h : lookupKey t i = none) : insertIfAbsent t i v = t ++ [(i, v)] := by
  simp [insertIfAbsent, h]

lemma insertIfAbsent_of_some {ρ : Type} (t : List (String × ρ)) (i : String) (v w : ρ)
    (h : lookupKey t i = some w) : insertIfAbsent t i v = t := by
  simp [insertIfAbsent, h]

/-! ### Reduction lemmas for the driver operations -/

lemma ensure_pool_run {s : PostgresClient} {u : Unit} {env : PgEnv} (h : s.pool = some u) :
    s.ensure_pool env = Except.ok s := by
  unfold PostgresClient.ensure_pool
  rw [h]

lemma upsert_resource_run {s : PostgresClient} {u : Unit} {env : PgEnv} {db : Db}
    {res : Resource} (h : s.pool = some u) :
    s.upsert_resource env db res =
      Except.ok (s, { db with resources := setKey db.resources res.id (s.resource_row res) }) := by
  unfold PostgresClient.upsert_resource
  rw [ensure_pool_run h]
  simp [h]

lemma upsert_category_run {s : PostgresClient} {u : Unit} {env : PgEnv} {db : Db}
    {cat : MemoryCategory} (h : s.pool = some u) :
    s.upsert_category env db cat =
      Except.ok (s, { db with categories := setKey db.categories cat.id (s.category_row cat) }) := by
  unfold PostgresClient.upsert_category
  rw [ensure_pool_run h]
  simp [h]

/-- The `relations` row that `upsert_relation` builds from an in-memory
relation record. -/
def relRow (rel : CategoryItem) : RelationRow :=
  { item_id := rel.item_id, category_id := rel.category_id }

lemma upsert_item_run {s : PostgresClient} {u : Unit} {env : PgEnv} {db : Db}
    {item : MemoryItem} {now : Nat} (h : s.pool = some u) :
    s.upsert_item env db item now =
      Except.ok (s, { db with items := upsertKeyed db.items item.id (itemStep item now) }) := by
  unfold PostgresClient.upsert_item
  rw [ensure_pool_run h]
  simp [h]

lemma upsert_relation_run {s : PostgresClient} {u : Unit} {env : PgEnv} {db : Db}
    {rel : CategoryItem} {newId : String} (h : s.pool = some u) :
    s.upsert_relation env db rel newId =
      Except.ok (s, { db with relations := insertIfAbsent db.relations newId (relRow rel) }) := by
  unfold PostgresClient.upsert_relation
  rw [ensure_pool_run h]
  simp [h, relRow]

lemma load_into_store_run {s : PostgresClient} {u : Unit} {env : PgEnv} {db : Db}
    {store : InMemoryStore} (h : s.pool = some u) :
    s.load_into_store env db store = Except.ok (s, loadedStore db store, true) := by
  unfold PostgresClient.load_into_store
  rw [ensure_pool_run h]
  simp [h]

lemma ensure_pool_raise {s : PostgresClient} {e : PgError} {env : PgEnv}
    (h : s.pool = none) (he : env.create_pool = Except.error e) :
    s.ensure_pool env = Except.error e := by
  unfold PostgresClient.ensure_pool
  rw [h, he]

lemma loadedStore_resources (db : Db) (store : InMemoryStore) :
    (loadedStore db store).resources = foldSet resourceOfRow store.resources db.resources := rfl

lemma loadedStore_categories (db : Db) (store : InMemoryStore) :
    (loadedStore db store).categories = foldSet categoryOfRow store.categories db.categories := rfl

lemma loadedStore_items (db : Db) (store : InMemoryStore) :
    (loadedStore db store).items = foldSet itemOfRow store.items db.items := rfl

lemma loadedStore_relations (db : Db) (store : InMemoryStore) :
    (loadedStore db store).relations =
      store.relations ++ db.relations.map (fun p => relOfRow p.2) := rfl

lemma exceptBind_ok {ε α β : Type} (a : α) (f : α → Except ε β) :
    (Except.ok a : Except ε α).bind f = f a := rfl

lemma lookupKey_append_none {ρ : Type} (t : List (String × ρ)) (i j : String) (v : ρ)
    (h : lookupKey t j = none) (hne : i ≠ j) : lookupKey (t ++ [(i, v)]) j = none := by
  induction t with
  | nil =>
    simp only [List.nil_append, lookupKey]
    rw [if_neg hne]
  | cons p rest ih =>
    obtain ⟨k, w⟩ := p
    by_cases hk : k = j
    · subst hk
      simp [lookupKey] at h
    · simp only [List.cons_append, lookupKey, if_neg hk] at h ⊢
      exact ih h

lemma setKey_setKey {ρ : Type} (t : List (String × ρ)) (i : String) (v : ρ) :
    setKey (setKey t i v) i v = setKey t i v :=
  upsertKeyed_absorb t i (fun _ => v) (fun _ => v) (fun _ => rfl)

lemma itemStep_absorb (item : MemoryItem) (now1 now2 : Nat) (o : Option ItemRow) :
    itemStep item now2 (some (itemStep item now1 o)) = itemStep item now1 o := by
  cases o <;> rfl

/-! ### Concrete sample data for witnesses and counterexamples -/

/-- An environment in which `asyncpg.create_pool` succeeds. -/
def demoEnv : PgEnv := { create_pool := Except.ok () }

/-- An environment in which the connection string is unreachable and
`asyncpg.create_pool` raises. -/
def downEnv : PgEnv := { create_pool := Except.error PgError.connectivity }

/-- A just-constructed client: `self.pool is None`. -/
def freshClient : PostgresClient :=
  { dsn := "postgresql://db.invalid/memu", pool := none, embed_dim := 1536 }

/-- A client whose pool has been established. -/
def readyClient : PostgresClient :=
  { dsn := "postgresql://localhost/memu", pool := some (), embed_dim := 1536 }

def demoResource : Resource :=
  { id := "r1", url := "http://x", local_path := "/tmp/x", modality := "text",
    caption := none, embedding := some [1, 2] }

def demoCategory : MemoryCategory :=
  { id := "c1", name := "diet", description := "food", summary := none, embedding := none }

def demoItem : MemoryItem :=
  { id := "i1", resource_id := "r1", memory_type := "profile", summary := "likes tea",
    embedding := none }

def demoRel : CategoryItem := { item_id := "i1", category_id := "c1" }

/-- A proxy constructed with `db=None`. -/
def demoProxyNoDb : PersistentStoreProxy := { store := emptyStore, db := none }

/-- A durable store holding one pre-existing relation row. -/
def relOnlyDb : Db := { emptyDb with relations := [("u0", relRow demoRel)] }

/-- A durable store with one row in each table (as written by the driver). -/
def demoDb : Db :=
  { resources := [("r1", readyClient.resource_row demoResource)]
    categories := [("c1", readyClient.category_row demoCategory)]
    items := [("i1", itemStep demoItem 7 none)]
    relations := [("u0", relRow demoRel)] }

/-- A pre-existing in-memory resource whose id does not occur in `demoDb`. -/
def oldResource : Resource :=
  { id := "rx", url := "http://old", local_path := "/old", modality := "text",
    caption := some "old", embedding := some [5] }

def oldCategory : MemoryCategory :=
  { id := "cx", name := "archive", description := "", summary := none, embedding := none }

def oldItem : MemoryItem :=
  { id := "ix", resource_id := "rz", memory_type := "event", summary := "old",
    embedding := none }

/-- A non-empty repository populated before any reload. -/
def demoFullStore : InMemoryStore :=
  { resources := [("rx", oldResource)]
    categories := [("cx", oldCategory)]
    items := [("ix", oldItem)]
    relations := [demoRel]
    next_id := 9 }

/-- A `categories` row whose embedding payload is a string that `json.loads`
rejects. -/
def badCatRow : CategoryRow :=
  { name := some "bad", description := none, summary := none,
    embedding := DbVal.str EmbStr.malformed, embed_model := none, embed_dim := 1536 }

/-- A durable store with one malformed-embedding category row next to
well-formed rows. -/
def badDb : Db :=
  { resources := []
    categories := [("cbad", badCatRow), ("c1", readyClient.category_row demoCategory)]
    items := [("i1", itemStep demoItem 7 none)]
    relations := [] }

/-! ### Claim theorems -/

/-- C1 (amended): if the pool is unset and pool creation fails (unreachable
connection string), every persistence operation of the driver *raises* the
connectivity error — on every call, not only the first — and performs no
write; it does not degrade to a silent no-op.  (The silent-return guard `if
self.pool is None: return` fires only if `ensure_pool` completes without
raising yet leaves the pool unset, which the pool factory — return a handle or
raise — never produces.) -/
theorem upserts_raise_when_pool_cannot_be_established
    (s : PostgresClient) (env : PgEnv) (db : Db) (res : Resource) (cat : MemoryCategory)
    (item : MemoryItem) (now : Nat) (rel : CategoryItem) (newId : String) (e : PgError)
    (h : s.pool = none) (he : env.create_pool = Except.error e) :
    s.upsert_resource env db res = Except.error e ∧
    s.upsert_category env db cat = Except.error e ∧
    s.upsert_item env db item now = Except.error e ∧
    s.upsert_relation env db rel newId = Except.error e := by
  refine ⟨?_, ?_, ?_, ?_⟩
  · unfold PostgresClient.upsert_resource
    rw [ensure_pool_raise h he]
  · unfold PostgresClient.upsert_category
    rw [ensure_pool_raise h he]
  · unfold PostgresClient.upsert_item
    rw [ensure_pool_raise h he]
  · unfold PostgresClient.upsert_relation
    rw [ensure_pool_raise h he]

/-- C1 witness: the amended behaviour at a concrete unreachable client. -/
theorem upserts_raise_when_pool_cannot_be_established_witness :
    freshClient.pool = none ∧
    downEnv.create_pool = Except.error PgError.connectivity ∧
    (freshClient.upsert_resource downEnv emptyDb demoResource =
        Except.error PgError.connectivity ∧
      freshClient.upsert_category downEnv emptyDb demoCategory =
        Except.error PgError.connectivity ∧
      freshClient.upsert_item downEnv emptyDb demoItem 7 =
        Except.error PgError.connectivity ∧
      freshClient.upsert_relation downEnv emptyDb demoRel "u1" =
        Except.error PgError.connectivity) :=
  ⟨rfl, rfl,
    upserts_raise_when_pool_cannot_be_established freshClient downEnv emptyDb demoResource
      demoCategory demoItem 7 demoRel "u1" PgError.connectivity rfl rfl⟩

/-- C1 counterexample to the claim as stated: with an unreachable connection
string (`create_pool` raises), `upsert_resource` does *not* return without
raising — it propagates the connectivity error; and since `self.pool` is still
`None` afterwards, a subsequent call is the very same computation and raises
again rather than degrading to a silent no-op. -/
theorem upserts_raise_when_pool_cannot_be_established_counterexample :
    freshClient.upsert_resource downEnv emptyDb demoResource =
      Except.error PgError.connectivity := rfl

/-- C3: creating a resource with a non-empty embedding vector `v`, persisting
it with the driver's upsert, then reloading via `load_into_store` into a fresh
repository yields a resource whose embedding equals `v` (exactly, in the
rational model — a fortiori within floating-point tolerance). -/
theorem embedding_round_trip
    (s : PostgresClient) (u : Unit) (env : PgEnv) (v : List Rat) (res : Resource)
    (h : s.pool = some u) (hv : v ≠ []) (he : res.embedding = some v) :
    ((s.upsert_resource env emptyDb res).bind
      (fun r => r.1.load_into_store env r.2 emptyStore)).map
      (fun r => (lookupKey r.2.1.resources res.id).map Resource.embedding) =
    Except.ok (some (some v)) := by
  simp only [upsert_resource_run h, exceptBind_ok, load_into_store_run h, Except.map]
  simp [loadedStore, foldSet, setKey, upsertKeyed, lookupKey, resourceOfRow,
    PostgresClient.resource_row, encodeEmb, decodeEmb, emptyDb, emptyStore, he]

/-- C3 witness: round trip of the concrete vector `[1, 2]`. -/
theorem embedding_round_trip_witness :
    readyClient.pool = some () ∧
    ([1, 2] : List Rat) ≠ [] ∧
    demoResource.embedding = some [1, 2] ∧
    ((readyClient.upsert_resource demoEnv emptyDb demoResource).bind
      (fun r => r.1.load_into_store demoEnv r.2 emptyStore)).map
      (fun r => (lookupKey r.2.1.resources demoResource.id).map Resource.embedding) =
    Except.ok (some (some [1, 2])) :=
  ⟨rfl, by decide, rfl,
    embedding_round_trip readyClient () demoEnv [1, 2] demoResource rfl (by decide) rfl⟩

/-- C4 (amended): repeated `load_into_store` is idempotent per id for the
three entity tables (resources, categories, items are re-assigned to the same
keys with the same values), but **not** for relations: relation records are
appended on every load, so a second load duplicates them. -/
theorem repeated_load_idempotent_per_id_except_relations
    (s : PostgresClient) (u : Unit) (env : PgEnv) (db : Db) (store : InMemoryStore)
    (h : s.pool = some u)
    (hr : (db.resources.map Prod.fst).Nodup)
    (hc : (db.categories.map Prod.fst).Nodup)
    (hi : (db.items.map Prod.fst).Nodup) :
    s.load_into_store env db store = Except.ok (s, loadedStore db store, true) ∧
    s.load_into_store env db (loadedStore db store) =
      Except.ok (s, loadedStore db (loadedStore db store), true) ∧
    (loadedStore db (loadedStore db store)).resources = (loadedStore db store).resources ∧
    (loadedStore db (loadedStore db store)).categories = (loadedStore db store).categories ∧
    (loadedStore db (loadedStore db store)).items = (loadedStore db store).items ∧
    (loadedStore db (loadedStore db store)).relations =
      (loadedStore db store).relations ++ db.relations.map (fun p => relOfRow p.2) := by
  refine ⟨load_into_store_run h, load_into_store_run h, ?_, ?_, ?_, rfl⟩
  · simp only [loadedStore_resources]
    exact foldSet_foldSet _ _ _ hr
  · simp only [loadedStore_categories]
    exact foldSet_foldSet _ _ _ hc
  · simp only [loadedStore_items]
    exact foldSet_foldSet _ _ _ hi

/-- C4 witness: the amended behaviour on `demoDb`. -/
theorem repeated_load_idempotent_per_id_except_relations_witness :
    readyClient.pool = some () ∧
    (demoDb.resources.map Prod.fst).Nodup ∧
    (demoDb.categories.map Prod.fst).Nodup ∧
    (demoDb.items.map Prod.fst).Nodup ∧
    (readyClient.load_into_store demoEnv demoDb emptyStore =
        Except.ok (readyClient, loadedStore demoDb emptyStore, true) ∧
      readyClient.load_into_store demoEnv demoDb (loadedStore demoDb emptyStore) =
        Except.ok (readyClient, loadedStore demoDb (loadedStore demoDb emptyStore), true) ∧
      (loadedStore demoDb (loadedStore demoDb emptyStore)).resources =
        (loadedStore demoDb emptyStore).resources ∧
      (loadedStore demoDb (loadedStore demoDb emptyStore)).categories =
        (loadedStore demoDb emptyStore).categories ∧
      (loadedStore demoDb (loadedStore demoDb emptyStore)).items =
        (loadedStore demoDb emptyStore).items ∧
      (loadedStore demoDb (loadedStore demoDb emptyStore)).relations =
        (loadedStore demoDb emptyStore).relations ++
          demoDb.relations.map (fun p => relOfRow p.2)) :=
  ⟨rfl, by decide, by decide, by decide,
    repeated_load_idempotent_per_id_except_relations readyClient () demoEnv demoDb
      emptyStore rfl (by decide) (by decide) (by decide)⟩

/-- C4 counterexample to the claim as stated: on a durable store holding one
relation row, loading twice into the same repository leaves two relation
records where a single load leaves one — the repository state differs, so
repeated loads are not idempotent. -/
theorem repeated_load_idempotent_per_id_except_relations_counterexample :
    ((readyClient.load_into_store demoEnv relOnlyDb emptyStore).bind
      (fun r => r.1.load_into_store demoEnv relOnlyDb r.2.1)).map
      (fun r => r.2.1.relations.length) = Except.ok 2 ∧
    (readyClient.load_into_store demoEnv relOnlyDb emptyStore).map
      (fun r => r.2.1.relations.length) = Except.ok 1 :=
  ⟨rfl, rfl⟩

/-- C5: a reload never removes or corrupts a pre-existing repository entry
whose id is absent from the durable store — its lookup is unchanged — and
pre-existing relation records are kept (new ones are only appended). -/
theorem load_preserves_entries_absent_from_db
    (s : PostgresClient) (u : Unit) (env : PgEnv) (db : Db) (store : InMemoryStore)
    (i1 i2 i3 : String) (h : s.pool = some u)
    (h1 : i1 ∉ db.resources.map Prod.fst)
    (h2 : i2 ∉ db.categories.map Prod.fst)
    (h3 : i3 ∉ db.items.map Prod.fst) :
    s.load_into_store env db store = Except.ok (s, loadedStore db store, true) ∧
    lookupKey (loadedStore db store).resources i1 = lookupKey store.resources i1 ∧
    lookupKey (loadedStore db store).categories i2 = lookupKey store.categories i2 ∧
    lookupKey (loadedStore db store).items i3 = lookupKey store.items i3 ∧
    (loadedStore db store).relations =
      store.relations ++ db.relations.map (fun p => relOfRow p.2) := by
  refine ⟨load_into_store_run h, ?_, ?_, ?_, rfl⟩
  · rw [loadedStore_resources]
    exact lookupKey_foldSet_of_not_mem _ _ _ _ h1
  · rw [loadedStore_categories]
    exact lookupKey_foldSet_of_not_mem _ _ _ _ h2
  · rw [loadedStore_items]
    exact lookupKey_foldSet_of_not_mem _ _ _ _ h3

/-- C5 witness: reloading `demoDb` into the non-empty `demoFullStore` leaves
the pre-existing entries `rx`/`cx`/`ix` (absent from `demoDb`) untouched. -/
theorem load_preserves_entries_absent_from_db_witness :
    readyClient.pool = some () ∧
    "rx" ∉ demoDb.resources.map Prod.fst ∧
    "cx" ∉ demoDb.categories.map Prod.fst ∧
    "ix" ∉ demoDb.items.map Prod.fst ∧
    (readyClient.load_into_store demoEnv demoDb demoFullStore =
        Except.ok (readyClient, loadedStore demoDb demoFullStore, true) ∧
      lookupKey (loadedStore demoDb demoFullStore).resources "rx" =
        lookupKey demoFullStore.resources "rx" ∧
      lookupKey (loadedStore demoDb demoFullStore).categories "cx" =
        lookupKey demoFullStore.categories "cx" ∧
      lookupKey (loadedStore demoDb demoFullStore).items "ix" =
        lookupKey demoFullStore.items "ix" ∧
      (loadedStore demoDb demoFullStore).relations =
        demoFullStore.relations ++ demoDb.relations.map (fun p => relOfRow p.2)) :=
  ⟨rfl, by decide, by decide, by decide,
    load_preserves_entries_absent_from_db readyClient () demoEnv demoDb demoFullStore
      "rx" "cx" "ix" rfl (by decide) (by decide) (by decide)⟩

/-- C9: a malformed embedding payload on one row is recovered locally — the
row is still loaded, with an absent embedding — no error is raised by the
load, and every other row (shown here for all category and item rows) is
loaded normally. -/
theorem malformed_embedding_recovered
    (s : PostgresClient) (u : Unit) (env : PgEnv) (db : Db) (store : InMemoryStore)
    (cid : String) (crow : CategoryRow) (h : s.pool = some u)
    (hc : (db.categories.map Prod.fst).Nodup)
    (hi : (db.items.map Prod.fst).Nodup)
    (hmem : (cid, crow) ∈ db.categories)
    (hbad : crow.embedding = DbVal.str EmbStr.malformed) :
    s.load_into_store env db store = Except.ok (s, loadedStore db store, true) ∧
    lookupKey (loadedStore db store).categories cid = some (categoryOfRow cid crow) ∧
    (categoryOfRow cid crow).embedding = none ∧
    (∀ i row, (i, row) ∈ db.categories →
      lookupKey (loadedStore db store).categories i = some (categoryOfRow i row)) ∧
    (∀ i row, (i, row) ∈ db.items →
      lookupKey (loadedStore db store).items i = some (itemOfRow i row)) := by
  refine ⟨load_into_store_run h, ?_, ?_, ?_, ?_⟩
  · rw [loadedStore_categories]
    exact lookupKey_foldSet_of_mem _ _ _ _ _ hc hmem
  · simp [categoryOfRow, hbad, decodeEmb]
  · intro i row hm
    rw [loadedStore_categories]
    exact lookupKey_foldSet_of_mem _ _ _ _ _ hc hm
  · intro i row hm
    rw [loadedStore_items]
    exact lookupKey_foldSet_of_mem _ _ _ _ _ hi hm

/-- C9 witness: loading `badDb`, whose row `cbad` carries an undecodable
embedding string, loads `cbad` with `embedding = none` and the neighbouring
rows unchanged. -/
theorem malformed_embedding_recovered_witness :
    readyClient.pool = some () ∧
    (badDb.categories.map Prod.fst).Nodup ∧
    (badDb.items.map Prod.fst).Nodup ∧
    ("cbad", badCatRow) ∈ badDb.categories ∧
    badCatRow.embedding = DbVal.str EmbStr.malformed ∧
    (readyClient.load_into_store demoEnv badDb emptyStore =
        Except.ok (readyClient, loadedStore badDb emptyStore, true) ∧
      lookupKey (loadedStore badDb emptyStore).categories "cbad" =
        some (categoryOfRow "cbad" badCatRow) ∧
      (categoryOfRow "cbad" badCatRow).embedding = none ∧
      (∀ i row, (i, row) ∈ badDb.categories →
        lookupKey (loadedStore badDb emptyStore).categories i =
          some (categoryOfRow i row)) ∧
      (∀ i row, (i, row) ∈ badDb.items →
        lookupKey (loadedStore badDb emptyStore).items i = some (itemOfRow i row))) :=
  ⟨rfl, by decide, by decide, by decide, rfl,
    malformed_embedding_recovered readyClient () demoEnv badDb emptyStore "cbad"
      badCatRow rfl (by decide) (by decide) (by decide) rfl⟩

/-- C10: every `MemoryItem` reconstructed by `load_into_store` carries
`resource_id = ""` and `memory_type = "knowledge"`, whatever the persisted
item was created with — the `items` table stores neither field. -/
theorem loaded_items_lose_provenance
    (s : PostgresClient) (u : Unit) (env : PgEnv) (db : Db) (store : InMemoryStore)
    (iid : String) (irow : ItemRow) (h : s.pool = some u)
    (hi : (db.items.map Prod.fst).Nodup) (hmem : (iid, irow) ∈ db.items) :
    s.load_into_store env db store = Except.ok (s, loadedStore db store, true) ∧
    lookupKey (loadedStore db store).items iid = some (itemOfRow iid irow) ∧
    (itemOfRow iid irow).resource_id = "" ∧
    (itemOfRow iid irow).memory_type = "knowledge" := by
  refine ⟨load_into_store_run h, ?_, rfl, rfl⟩
  rw [loadedStore_items]
  exact lookupKey_foldSet_of_mem _ _ _ _ _ hi hmem

/-- C10 witness: `demoItem` was created with `resource_id = "r1"` and
`memory_type = "profile"`; its row in `demoDb` (as written by `upsert_item`)
reloads with `resource_id = ""` and `memory_type = "knowledge"`. -/
theorem loaded_items_lose_provenance_witness :
    demoItem.resource_id = "r1" ∧
    demoItem.memory_type = "profile" ∧
    readyClient.upsert_item demoEnv emptyDb demoItem 7 =
      Except.ok (readyClient, { emptyDb with items := [("i1", itemStep demoItem 7 none)] }) ∧
    readyClient.pool = some () ∧
    (demoDb.items.map Prod.fst).Nodup ∧
    ("i1", itemStep demoItem 7 none) ∈ demoDb.items ∧
    (readyClient.load_into_store demoEnv demoDb emptyStore =
        Except.ok (readyClient, loadedStore demoDb emptyStore, true) ∧
      lookupKey (loadedStore demoDb emptyStore).items "i1" =
        some (itemOfRow "i1" (itemStep demoItem 7 none)) ∧
      (itemOfRow "i1" (itemStep demoItem 7 none)).resource_id = "" ∧
      (itemOfRow "i1" (itemStep demoItem 7 none)).memory_type = "knowledge") :=
  ⟨rfl, rfl, rfl, rfl, by decide, by decide,
    loaded_items_lose_provenance readyClient () demoEnv demoDb emptyStore "i1"
      (itemStep demoItem 7 none) rfl (by decide) (by decide)⟩

/-- C2 (amended): calling an upsert twice with identical content leaves the
durable store exactly as one call does for `Resource`, `MemoryCategory` and
`MemoryItem` (for items, even when the second call happens at a different
`now()`); it fails for `CategoryItem`: each `upsert_relation` call inserts a
row under its own freshly generated identifier, so two calls with identical
content append two rows. -/
theorem upsert_idempotent_except_relations
    (s : PostgresClient) (u : Unit) (env : PgEnv) (db : Db) (res : Resource)
    (cat : MemoryCategory) (item : MemoryItem) (now1 now2 : Nat) (rel : CategoryItem)
    (id1 id2 : String) (h : s.pool = some u)
    (h1 : lookupKey db.relations id1 = none)
    (h2 : lookupKey db.relations id2 = none) (h3 : id1 ≠ id2) :
    ((s.upsert_resource env db res).bind (fun r => r.1.upsert_resource env r.2 res) =
      s.upsert_resource env db res) ∧
    ((s.upsert_category env db cat).bind (fun r => r.1.upsert_category env r.2 cat) =
      s.upsert_category env db cat) ∧
    ((s.upsert_item env db item now1).bind (fun r => r.1.upsert_item env r.2 item now2) =
      s.upsert_item env db item now1) ∧
    ((s.upsert_relation env db rel id1).bind (fun r => r.1.upsert_relation env r.2 rel id2) =
      Except.ok (s, { db with relations :=
        db.relations ++ [(id1, relRow rel), (id2, relRow rel)] })) := by
  refine ⟨?_, ?_, ?_, ?_⟩
  · simp only [upsert_resource_run h, exceptBind_ok, setKey_setKey]
  · simp only [upsert_category_run h, exceptBind_ok, setKey_setKey]
  · simp only [upsert_item_run h, exceptBind_ok,
      upsertKeyed_absorb db.items item.id (itemStep item now1) (itemStep item now2)
        (itemStep_absorb item now1 now2)]
  · simp only [upsert_relation_run h, exceptBind_ok,
      insertIfAbsent_of_none db.relations id1 (relRow rel) h1]
    rw [insertIfAbsent_of_none _ _ _
      (lookupKey_append_none db.relations id1 id2 (relRow rel) h2 h3)]
    simp

/-- C2 witness: the amended behaviour at concrete inputs. -/
theorem upsert_idempotent_except_relations_witness :
    readyClient.pool = some () ∧
    lookupKey emptyDb.relations "u1" = none ∧
    lookupKey emptyDb.relations "u2" = none ∧
    "u1" ≠ "u2" ∧
    (((readyClient.upsert_resource demoEnv emptyDb demoResource).bind
        (fun r => r.1.upsert_resource demoEnv r.2 demoResource) =
        readyClient.upsert_resource demoEnv emptyDb demoResource) ∧
      ((readyClient.upsert_category demoEnv emptyDb demoCategory).bind
        (fun r => r.1.upsert_category demoEnv r.2 demoCategory) =
        readyClient.upsert_category demoEnv emptyDb demoCategory) ∧
      ((readyClient.upsert_item demoEnv emptyDb demoItem 5).bind
        (fun r => r.1.upsert_item demoEnv r.2 demoItem 9) =
        readyClient.upsert_item demoEnv emptyDb demoItem 5) ∧
      ((readyClient.upsert_relation demoEnv emptyDb demoRel "u1").bind
        (fun r => r.1.upsert_relation demoEnv r.2 demoRel "u2") =
        Except.ok (readyClient, { emptyDb with relations :=
          emptyDb.relations ++ [("u1", relRow demoRel), ("u2", relRow demoRel)] }))) :=
  ⟨rfl, rfl, rfl, by decide,
    upsert_idempotent_except_relations readyClient () demoEnv emptyDb demoResource
      demoCategory demoItem 5 9 demoRel "u1" "u2" rfl rfl rfl (by decide)⟩

/-- C2 counterexample to the claim as stated: persisting the same relation
record twice leaves the durable store with two relation rows, not the
one-row state a single call produces — so the claim's universal idempotence
fails for `CategoryItem`. -/
theorem upsert_idempotent_except_relations_counterexample :
    ((readyClient.upsert_relation demoEnv emptyDb demoRel "u1").bind
      (fun r => r.1.upsert_relation demoEnv r.2 demoRel "u2")).map
      (fun r => r.2.relations.length) = Except.ok 2 ∧
    (readyClient.upsert_relation demoEnv emptyDb demoRel "u1").map
      (fun r => r.2.relations.length) = Except.ok 1 :=
  ⟨rfl, rfl⟩

/-- C7: `upsert_relation` inserts a row under the freshly generated identifier
it is given; two calls for the same (item, category) link append two rows (no
dedup of pairs), and an insert is skipped — leaving the store unchanged —
exactly when a row with the same identifier already exists. -/
theorem relation_rows_not_deduped
    (s : PostgresClient) (u : Unit) (env : PgEnv) (db : Db) (rel : CategoryItem)
    (id1 id2 id3 : String) (row3 : RelationRow) (h : s.pool = some u)
    (h1 : lookupKey db.relations id1 = none)
    (h2 : lookupKey db.relations id2 = none) (h3 : id1 ≠ id2)
    (h4 : lookupKey db.relations id3 = some row3) :
    ((s.upsert_relation env db rel id1).bind (fun r => r.1.upsert_relation env r.2 rel id2) =
      Except.ok (s, { db with relations :=
        db.relations ++ [(id1, relRow rel), (id2, relRow rel)] })) ∧
    s.upsert_relation env db rel id3 = Except.ok (s, db) := by
  constructor
  · simp only [upsert_relation_run h, exceptBind_ok,
      insertIfAbsent_of_none db.relations id1 (relRow rel) h1]
    rw [insertIfAbsent_of_none _ _ _
      (lookupKey_append_none db.relations id1 id2 (relRow rel) h2 h3)]
    simp
  · rw [upsert_relation_run h, insertIfAbsent_of_some _ _ _ _ h4]

/-- C7 witness at concrete inputs: `relOnlyDb` already holds a relation row
with id `u0`, so an insert under `u0` is skipped while fresh ids `u1`, `u2`
append two rows for the same (item, category) pair. -/
theorem relation_rows_not_deduped_witness :
    readyClient.pool = some () ∧
    lookupKey relOnlyDb.relations "u1" = none ∧
    lookupKey relOnlyDb.relations "u2" = none ∧
    "u1" ≠ "u2" ∧
    lookupKey relOnlyDb.relations "u0" = some (relRow demoRel) ∧
    (((readyClient.upsert_relation demoEnv relOnlyDb demoRel "u1").bind
        (fun r => r.1.upsert_relation demoEnv r.2 demoRel "u2") =
        Except.ok (readyClient, { relOnlyDb with relations :=
          relOnlyDb.relations ++ [("u1", relRow demoRel), ("u2", relRow demoRel)] })) ∧
      readyClient.upsert_relation demoEnv relOnlyDb demoRel "u0" =
        Except.ok (readyClient, relOnlyDb)) :=
  ⟨rfl, by decide, by decide, by decide, by decide,
    relation_rows_not_deduped readyClient () demoEnv relOnlyDb demoRel "u1" "u2" "u0"
      (relRow demoRel) rfl (by decide) (by decide) (by decide) (by decide)⟩

/-- C6: against a proxy constructed with `db=None`, every persistence call
returns without raising and with no side effect on either the proxy or the
durable store, and `load_all()` returns `False`. -/
theorem unconfigured_proxy_is_noop
    (p : PersistentStoreProxy) (env : PgEnv) (db : Db) (res : Resource)
    (cat : MemoryCategory) (item : MemoryItem) (now : Nat) (rel : CategoryItem)
    (newId : String) (h : p.db = none) :
    p.persist_resource env db res = Except.ok (p, db) ∧
    p.persist_category env db cat = Except.ok (p, db) ∧
    p.persist_item env db item now = Except.ok (p, db) ∧
    p.persist_relation env db rel newId = Except.ok (p, db) ∧
    p.load_all env db = Except.ok (p, false) := by
  refine ⟨?_, ?_, ?_, ?_, ?_⟩
  · unfold PersistentStoreProxy.persist_resource
    rw [h]
  · unfold PersistentStoreProxy.persist_category
    rw [h]
  · unfold PersistentStoreProxy.persist_item
    rw [h]
  · unfold PersistentStoreProxy.persist_relation
    rw [h]
  · unfold PersistentStoreProxy.load_all
    rw [h]

/-- C6 witness at a concrete unconfigured proxy. -/
theorem unconfigured_proxy_is_noop_witness :
    demoProxyNoDb.db = none ∧
    (demoProxyNoDb.persist_resource demoEnv emptyDb demoResource =
        Except.ok (demoProxyNoDb, emptyDb) ∧
      demoProxyNoDb.persist_category demoEnv emptyDb demoCategory =
        Except.ok (demoProxyNoDb, emptyDb) ∧
      demoProxyNoDb.persist_item demoEnv emptyDb demoItem 7 =
        Except.ok (demoProxyNoDb, emptyDb) ∧
      demoProxyNoDb.persist_relation demoEnv emptyDb demoRel "u1" =
        Except.ok (demoProxyNoDb, emptyDb) ∧
      demoProxyNoDb.load_all demoEnv emptyDb = Except.ok (demoProxyNoDb, false)) :=
  ⟨rfl,
    unconfigured_proxy_is_noop demoProxyNoDb demoEnv emptyDb demoResource demoCategory
      demoItem 7 demoRel "u1" rfl⟩

/-- C8: each of the proxy's four creation operations returns exactly what the
in-memory repository operation returns, leaves the proxy's store exactly as
the repository operation leaves it, and changes nothing else (the driver
reference is untouched). -/
theorem proxy_mirrors_repository_creation
    (p : PersistentStoreProxy) (url modality local_path name description : String)
    (emb1 : Option (List Rat)) (resource_id memory_type summary : String)
    (emb2 : Option (List Rat)) (item_id cat_id : String) :
    ((p.create_resource url modality local_path).1 =
        (p.store.create_resource url modality local_path).1 ∧
      (p.create_resource url modality local_path).2.store =
        (p.store.create_resource url modality local_path).2 ∧
      (p.create_resource url modality local_path).2.db = p.db) ∧
    ((p.get_or_create_category name description emb1).1 =
        (p.store.get_or_create_category name description emb1).1 ∧
      (p.get_or_create_category name description emb1).2.store =
        (p.store.get_or_create_category name description emb1).2 ∧
      (p.get_or_create_category name description emb1).2.db = p.db) ∧
    ((p.create_item resource_id memory_type summary emb2).1 =
        (p.store.create_item resource_id memory_type summary emb2).1 ∧
      (p.create_item resource_id memory_type summary emb2).2.store =
        (p.store.create_item resource_id memory_type summary emb2).2 ∧
      (p.create_item resource_id memory_type summary emb2).2.db = p.db) ∧
    ((p.link_item_category item_id cat_id).1 =
        (p.store.link_item_category item_id cat_id).1 ∧
      (p.link_item_category item_id cat_id).2.store =
        (p.store.link_item_category item_id cat_id).2 ∧
      (p.link_item_category item_id cat_id).2.db = p.db) :=
  ⟨⟨rfl, rfl, rfl⟩, ⟨rfl, rfl, rfl⟩, ⟨rfl, rfl, rfl⟩, ⟨rfl, rfl, rfl⟩⟩

end MemU
